import Mathlib

/-!
Verification of the environmental-monitoring core of
`src/modulo-03-arduino-rust/exemplos/monitor_ambiental.rs`.

Modelling conventions:
* `f32` fields and the temperature/humidity/pressure conversions are modelled
  over `ℚ`.  On the whole raw domain (0..1023) the Rust `f32` computations for
  those three channels are exact (all intermediate values have power-of-two
  denominators and numerators below 2^24), so the rational model is bit-faithful.
* The air-quality conversion uses `powf` with an irrational exponent, so it is
  modelled over `ℝ` with `Real.rpow`.  At `raw = 0`, IEEE `f32` gives
  `voltage = 0`, `resistance = 5.0/0.0 = +inf` and `(+inf).powf(-2.769...) = 0`,
  hence `ppm = 0`; the real-valued model (`x / 0 = 0` and `0 ^ z = 0` for
  `z ≠ 0` under `rpow`) yields the same `ppm = 0`, so both semantics agree on
  the returned value there.
* `u32` timestamps and `usize` indices are modelled as `ℕ`; the wrapping
  `u32` subtraction used for interval gating is modelled explicitly.
* Hardware handles (ADC channels, USART, pins) are outside the model; the
  Reporter collaborator (serial transport) is modelled as an oracle giving the
  outcome of each attempted send, and the monitoring cycle additionally
  returns the list of attempted communication events so that "number of send
  attempts" is observable.
* The storage array `data_buffer: [EnvironmentalData; 50]` is modelled as a
  total map `ℕ → EnvironmentalData`; the Rust indexing `data_buffer[i]` is
  only ever performed at indices `< 50` in reachable states (write-cursor
  invariant, proved below), so the bounds check never fires.
-/

/-- `EnvironmentalData` (monitor_ambiental.rs, lines 12-19). -/
structure EnvironmentalData where
  temperature : ℚ
  humidity : ℚ
  air_quality : ℚ
  pressure : ℚ
  timestamp : ℕ
deriving DecidableEq

/-- `SensorError` (lines 21-26). -/
inductive SensorError where
  | readError
  | calibrationError
  | communicationError
deriving DecidableEq

/-- `SystemConfig` (lines 29-33). -/
structure SystemConfig where
  reading_interval : ℕ
  alert_threshold : ℚ
  calibration_factor : ℚ
deriving DecidableEq

/-- `SystemConfig::default` (lines 35-43). -/
def SystemConfig.default : SystemConfig :=
  { reading_interval := 5000, alert_threshold := 100, calibration_factor := 1 }

/-- `SensorType` (lines 161-167). -/
inductive SensorType where
  | temperature
  | humidity
  | airQuality
  | pressure
deriving DecidableEq

/-- `SensorManager` (lines 46-52); the four ADC channel handles are hardware
resources outside the model, leaving the owned `config`. -/
structure SensorManager where
  config : SystemConfig
deriving DecidableEq

/-- `SensorManager::convert_temperature` (lines 90-100).  Exact over `ℚ`. -/
def convert_temperature (raw : ℕ) : Except SensorError ℚ :=
  let voltage : ℚ := (raw * 5) / 1024
  let temperature : ℚ := voltage * 100
  if temperature < -40 ∨ temperature > 125 then .error SensorError.readError
  else .ok temperature

/-- `SensorManager::convert_humidity` (lines 102-111).  Exact over `ℚ`. -/
def convert_humidity (raw : ℕ) : Except SensorError ℚ :=
  let humidity : ℚ := (raw * 100) / 1024
  if humidity < 0 ∨ humidity > 100 then .error SensorError.readError
  else .ok humidity

open Classical in
/-- `SensorManager::convert_air_quality` (lines 113-124), over `ℝ` with
`Real.rpow` for `powf`.  There is no guard for `voltage == 0`: at `raw = 0`
both IEEE `f32` and this model produce `ppm = 0` (see the module comment),
which passes the range check. -/
noncomputable def convert_air_quality (raw : ℕ) : Except SensorError ℝ :=
  let voltage : ℝ := (raw * 5) / 1024
  let resistance : ℝ := (5 - voltage) / voltage
  let ppm : ℝ := 116.6020682 * resistance ^ (-2.769034857 : ℝ)
  if ppm < 0 ∨ ppm > 10000 then .error SensorError.readError
  else .ok ppm

/-- `SensorManager::convert_pressure` (lines 126-136).  Exact over `ℚ`. -/
def convert_pressure (raw : ℕ) : Except SensorError ℚ :=
  let voltage : ℚ := (raw * 5) / 1024
  let pressure : ℚ := (voltage - 0.5) * 400
  if pressure < 30 ∨ pressure > 110 then .error SensorError.readError
  else .ok pressure

/-- C1: the spec requires the air-quality channel to guard `voltage == 0`
(raw = 0) explicitly and yield `ReadError`.  The code has no such guard: at
`raw = 0` the conversion computes `ppm = 0` (IEEE: `resistance = +inf`,
`inf.powf(-2.769...) = 0`), which is silently in range, and `Ok(0.0)` is
returned instead of `ReadError`.  This theorem evaluates the code at the
failing input. -/
theorem air_quality_raw_zero_returns_ok_zero :
    convert_air_quality 0 = .ok 0 := by
  have hexp : (-2.769034857 : ℝ) ≠ 0 := by norm_num
  simp only [convert_air_quality, Nat.cast_zero]
  rw [show ((0 : ℝ) * 5) / 1024 = 0 by norm_num]
  rw [show ((5 : ℝ) - 0) / 0 = 0 by norm_num]
  rw [Real.zero_rpow hexp]
  norm_num

/-- C9: for every raw sample in the raw domain (0..1023) and every channel,
the conversion either returns `Ok v` with `v` inside that channel's stated
valid range (temperature [-40,125], humidity [0,100], air quality [0,10000],
pressure [30,110]) or returns `ReadError`. -/
theorem conversions_in_range (raw : ℕ) (hraw : raw ≤ 1023) :
    (∀ v, convert_temperature raw = .ok v → -40 ≤ v ∧ v ≤ 125) ∧
    (∀ v, convert_humidity raw = .ok v → 0 ≤ v ∧ v ≤ 100) ∧
    (∀ v, convert_air_quality raw = .ok v → 0 ≤ v ∧ v ≤ 10000) ∧
    (∀ v, convert_pressure raw = .ok v → 30 ≤ v ∧ v ≤ 110) := by
  refine ⟨?_, ?_, ?_, ?_⟩ <;> intro v hv
  · simp only [convert_temperature] at hv
    split at hv
    · exact absurd hv (by simp)
    · rename_i hcond
      push_neg at hcond
      cases hv
      exact ⟨hcond.1, hcond.2⟩
  · simp only [convert_humidity] at hv
    split at hv
    · exact absurd hv (by simp)
    · rename_i hcond
      push_neg at hcond
      cases hv
      exact ⟨hcond.1, hcond.2⟩
  · simp only [convert_air_quality] at hv
    split at hv
    · exact absurd hv (by simp)
    · rename_i hcond
      push_neg at hcond
      cases hv
      exact ⟨hcond.1, hcond.2⟩
  · simp only [convert_pressure] at hv
    split at hv
    · exact absurd hv (by simp)
    · rename_i hcond
      push_neg at hcond
      cases hv
      exact ⟨hcond.1, hcond.2⟩

/-- Helper for the C9 witness: the air-quality conversion succeeds at
`raw = 100` with the explicit value `116.6020682 * 9.24 ^ (-2.769034857)`. -/
theorem convert_air_quality_100 :
    convert_air_quality 100 = .ok (116.6020682 * ((231 : ℝ)/25) ^ (-2.769034857 : ℝ)) := by
  have hbase : ((5 : ℝ) - ((100 : ℕ) : ℝ) * 5 / 1024) / (((100 : ℕ) : ℝ) * 5 / 1024)
      = (231 : ℝ)/25 := by
    push_cast
    norm_num
  have h0 : (0 : ℝ) ≤ 116.6020682 * ((231 : ℝ)/25) ^ (-2.769034857 : ℝ) := by
    have := Real.rpow_nonneg (show (0:ℝ) ≤ (231:ℝ)/25 by norm_num) (-2.769034857 : ℝ)
    nlinarith
  have h1 : 116.6020682 * ((231 : ℝ)/25) ^ (-2.769034857 : ℝ) ≤ 10000 := by
    have hle := Real.rpow_le_one_of_one_le_of_nonpos
      (show (1:ℝ) ≤ (231:ℝ)/25 by norm_num) (show (-2.769034857 : ℝ) ≤ 0 by norm_num)
    have hnn := Real.rpow_nonneg (show (0:ℝ) ≤ (231:ℝ)/25 by norm_num) (-2.769034857 : ℝ)
    nlinarith
  simp only [convert_air_quality]
  rw [show (((100 : ℕ) : ℝ) * 5) / 1024 = ((100 : ℕ) : ℝ) * 5 / 1024 from rfl, hbase]
  rw [if_neg]
  push_neg
  exact ⟨h0, h1⟩

/-- Witness for C9: concrete in-range successes on each channel, obtained by
applying `conversions_in_range` at raw = 100 (temperature), 512 (humidity),
100 (air quality) and 120 (pressure). -/
theorem conversions_in_range_witness :
    ((-40 : ℚ) ≤ 3125/64 ∧ (3125/64 : ℚ) ≤ 125) ∧
    ((0 : ℚ) ≤ 50 ∧ (50 : ℚ) ≤ 100) ∧
    ((0 : ℝ) ≤ 116.6020682 * ((231 : ℝ)/25) ^ (-2.769034857 : ℝ) ∧
      116.6020682 * ((231 : ℝ)/25) ^ (-2.769034857 : ℝ) ≤ 10000) ∧
    ((30 : ℚ) ≤ 275/8 ∧ (275/8 : ℚ) ≤ 110) := by
  refine ⟨?_, ?_, ?_, ?_⟩
  · exact (conversions_in_range 100 (by norm_num)).1 (3125/64) (by norm_num [convert_temperature])
  · exact (conversions_in_range 512 (by norm_num)).2.1 50 (by norm_num [convert_humidity])
  · exact (conversions_in_range 100 (by norm_num)).2.2.1 _ convert_air_quality_100
  · exact (conversions_in_range 120 (by norm_num)).2.2.2 (275/8) (by norm_num [convert_pressure])

/-- `AlertLevel` (lines 241-246). -/
inductive AlertLevel where
  | info
  | warning
  | critical
deriving DecidableEq

/-- `Alert` (lines 233-239); the `&'static str` message is a `String`. -/
structure Alert where
  level : AlertLevel
  message : String
  value : ℚ
  timestamp : ℕ
deriving DecidableEq

/-- `AlertSystem` (lines 170-174): config copy, boolean ring of 10 slots and
a monotonically increasing write counter. -/
structure AlertSystem where
  config : SystemConfig
  alert_history : Fin 10 → Bool
  alert_count : ℕ

/-- `AlertSystem::new` (lines 177-183). -/
def AlertSystem.new (config : SystemConfig) : AlertSystem :=
  { config := config, alert_history := fun _ => false, alert_count := 0 }

/-- `AlertSystem::update_alert_history` (lines 222-225). -/
def update_alert_history (a : AlertSystem) (has_alert : Bool) : AlertSystem :=
  { a with
    alert_history :=
      Function.update a.alert_history ⟨a.alert_count % 10, Nat.mod_lt _ (by norm_num)⟩ has_alert,
    alert_count := a.alert_count + 1 }

/-- `AlertSystem::check_alerts` (lines 185-220): three independent threshold
checks pushed in fixed order (air quality, temperature, humidity), then the
history update.  Returns the produced alerts and the updated system. -/
def check_alerts (a : AlertSystem) (data : EnvironmentalData) : List Alert × AlertSystem :=
  let alerts : List Alert := []
  let alerts := if data.air_quality > a.config.alert_threshold then
      alerts ++ [{ level := AlertLevel.warning, message := "Qualidade do ar crítica",
                   value := data.air_quality, timestamp := data.timestamp }]
    else alerts
  let alerts := if data.temperature > 35 ∨ data.temperature < 5 then
      alerts ++ [{ level := AlertLevel.critical, message := "Temperatura fora da faixa normal",
                   value := data.temperature, timestamp := data.timestamp }]
    else alerts
  let alerts := if data.humidity > 90 ∨ data.humidity < 10 then
      alerts ++ [{ level := AlertLevel.warning, message := "Umidade fora da faixa normal",
                   value := data.humidity, timestamp := data.timestamp }]
    else alerts
  (alerts, update_alert_history a (decide (alerts.length > 0)))

/-- Counterexample for C8 as stated: the message strings in the code are the
Portuguese literals, not the English texts quoted in the claim.  At a reading
whose air quality (200) exceeds the default threshold (100), the single alert
emitted carries message "Qualidade do ar crítica", which differs from the
claimed "air quality critical". -/
theorem check_alerts_message_counterexample :
    (check_alerts (AlertSystem.new SystemConfig.default)
        { temperature := 20, humidity := 50, air_quality := 200, pressure := 100,
          timestamp := 7 }).1
      = [{ level := AlertLevel.warning, message := "Qualidade do ar crítica",
           value := 200, timestamp := 7 }] ∧
    "Qualidade do ar crítica" ≠ "air quality critical" := by
  constructor
  · norm_num [check_alerts, AlertSystem.new, SystemConfig.default]
  · decide

/-- C8 (amended): alert evaluation checks each field independently
(air_quality > alert_threshold gives a Warning with message "Qualidade do ar
crítica"; temperature > 35.0 or < 5.0 gives a Critical with message
"Temperatura fora da faixa normal"; humidity > 90.0 or < 10.0 gives a Warning
with message "Umidade fora da faixa normal"), all may fire in one cycle, and
the alerts are emitted in the fixed deterministic order air_quality,
temperature, humidity. -/
theorem check_alerts_characterization (a : AlertSystem) (data : EnvironmentalData) :
    (check_alerts a data).1 =
      (if data.air_quality > a.config.alert_threshold then
        [{ level := AlertLevel.warning, message := "Qualidade do ar crítica",
           value := data.air_quality, timestamp := data.timestamp }]
      else []) ++
      (if data.temperature > 35 ∨ data.temperature < 5 then
        [{ level := AlertLevel.critical, message := "Temperatura fora da faixa normal",
           value := data.temperature, timestamp := data.timestamp }]
      else []) ++
      (if data.humidity > 90 ∨ data.humidity < 10 then
        [{ level := AlertLevel.warning, message := "Umidade fora da faixa normal",
           value := data.humidity, timestamp := data.timestamp }]
      else []) := by
  simp only [check_alerts]
  split_ifs <;> simp

/-- The all-zero `EnvironmentalData` produced by `core::mem::zeroed()` in
`DataStorage::new` (line 340). -/
def zeroData : EnvironmentalData :=
  { temperature := 0, humidity := 0, air_quality := 0, pressure := 0, timestamp := 0 }

/-- `DataStorage` (lines 331-335).  The 50-slot array is a total map on `ℕ`;
all reachable accesses are at indices < 50 (see `storeMany_write_index`). -/
structure DataStorage where
  data_buffer : ℕ → EnvironmentalData
  write_index : ℕ
  is_full : Bool

/-- `DataStorage::new` (lines 338-344). -/
def DataStorage.new : DataStorage :=
  { data_buffer := fun _ => zeroData, write_index := 0, is_full := false }

/-- `DataStorage::store_data` (lines 346-353): write at the cursor, advance
the cursor mod 50, set the full flag when the cursor wraps to 0. -/
def store_data (s : DataStorage) (data : EnvironmentalData) : DataStorage :=
  { data_buffer := Function.update s.data_buffer s.write_index data,
    write_index := (s.write_index + 1) % 50,
    is_full := if (s.write_index + 1) % 50 = 0 then true else s.is_full }

/-- `DataStorage::get_latest_data` (lines 355-362). -/
def get_latest_data (s : DataStorage) : Option EnvironmentalData :=
  if s.write_index = 0 ∧ ¬ s.is_full then none
  else
    let index := if s.write_index = 0 then 49 else s.write_index - 1
    some (s.data_buffer index)

/-- `DataStorage::get_average_data` (lines 364-397): one pass accumulating
the four field sums over the `count`-slot window, then division by `count`;
`now` is the value `arduino_hal::time::millis()` would return at the call. -/
def get_average_data (s : DataStorage) (now : ℕ) (count : ℕ) : Option EnvironmentalData :=
  if count = 0 ∨ count > 50 then none
  else
    let start_index := if s.is_full then (s.write_index + 50 - count) % 50 else 0
    let sums := (List.range count).foldl
      (fun acc i =>
        let index := (start_index + i) % 50
        let data := s.data_buffer index
        (acc.1 + data.temperature, acc.2.1 + data.humidity,
         acc.2.2.1 + data.air_quality, acc.2.2.2 + data.pressure))
      ((0 : ℚ), (0 : ℚ), (0 : ℚ), (0 : ℚ))
    some { temperature := sums.1 / count, humidity := sums.2.1 / count,
           air_quality := sums.2.2.1 / count, pressure := sums.2.2.2 / count,
           timestamp := now }

/-- A sequence of `store_data` calls, oldest first. -/
def storeMany (s : DataStorage) (l : List EnvironmentalData) : DataStorage :=
  l.foldl store_data s

theorem storeMany_append (s : DataStorage) (l : List EnvironmentalData) (d : EnvironmentalData) :
    storeMany s (l ++ [d]) = store_data (storeMany s l) d := by
  simp [storeMany, List.foldl_append]

theorem storeMany_write_index (l : List EnvironmentalData) :
    (storeMany DataStorage.new l).write_index = l.length % 50 := by
  induction l using List.reverseRecOn with
  | nil => rfl
  | append_singleton l d ih =>
    rw [storeMany_append]
    simp only [store_data, ih, List.length_append, List.length_singleton]
    omega

theorem storeMany_is_full (l : List EnvironmentalData) :
    (storeMany DataStorage.new l).is_full = decide (50 ≤ l.length) := by
  induction l using List.reverseRecOn with
  | nil => rfl
  | append_singleton l d ih =>
    rw [storeMany_append]
    simp only [store_data, storeMany_write_index, ih, List.length_append, List.length_singleton]
    by_cases h : (l.length % 50 + 1) % 50 = 0
    · rw [if_pos h]
      have : 50 ≤ l.length + 1 := by omega
      simp [this]
    · rw [if_neg h]
      rcases Nat.lt_or_ge l.length 49 with h2 | h2
      · have ha : ¬ 50 ≤ l.length := by omega
        have hb : ¬ 50 ≤ l.length + 1 := by omega
        simp [ha, hb]
      · have ha : 50 ≤ l.length := by omega
        have hb : 50 ≤ l.length + 1 := by omega
        simp [ha, hb]

theorem storeMany_buffer_not_full (l : List EnvironmentalData) (h : l.length < 50) (i : ℕ) :
    (storeMany DataStorage.new l).data_buffer i = l.getD i zeroData := by
  induction l using List.reverseRecOn with
  | nil => rfl
  | append_singleton l d ih =>
    have hl : l.length < 50 := by
      simp only [List.length_append, List.length_singleton] at h
      omega
    rw [storeMany_append]
    simp only [store_data, storeMany_write_index, Nat.mod_eq_of_lt hl]
    rcases lt_trichotomy i l.length with hi | hi | hi
    · rw [Function.update_noteq (by omega), ih hl, List.getD_append _ _ _ _ hi]
    · subst hi
      rw [Function.update_same, List.getD_append_right _ _ _ _ (le_refl _)]
      simp
    · rw [Function.update_noteq (by omega), ih hl]
      rw [List.getD_eq_default _ _ (by omega), List.getD_eq_default]
      simp only [List.length_append, List.length_singleton]
      omega

theorem storeMany_last_slot (l : List EnvironmentalData) (d : EnvironmentalData) :
    (storeMany DataStorage.new (l ++ [d])).data_buffer (l.length % 50) = d := by
  rw [storeMany_append]
  simp only [store_data, storeMany_write_index]
  exact Function.update_same _ _ _

/-- C4: for every sequence of stores from the initial storage, the write
cursor stays in [0, 50); the full flag equals "at least 50 writes happened"
(it becomes true exactly when the cursor wraps past 0 at the 50th write and
stays true thereafter); and before the flag is set only indices
[0, cursor) hold written data — slot `i` holds the `i`-th stored reading for
`i < cursor` and the initial zeroed value from `i = cursor` on. -/
theorem ring_store_invariants (l : List EnvironmentalData) :
    (storeMany DataStorage.new l).write_index < 50 ∧
    (storeMany DataStorage.new l).write_index = l.length % 50 ∧
    (storeMany DataStorage.new l).is_full = decide (50 ≤ l.length) ∧
    (l.length < 50 → ∀ i : ℕ,
      (storeMany DataStorage.new l).data_buffer i = l.getD i zeroData) :=
  ⟨by rw [storeMany_write_index]; omega,
   storeMany_write_index l,
   storeMany_is_full l,
   fun h i => storeMany_buffer_not_full l h i⟩

/-- Sample readings used for concrete witnesses and counterexamples. -/
def sampleReading1 : EnvironmentalData :=
  { temperature := 1, humidity := 2, air_quality := 3, pressure := 4, timestamp := 11 }

def sampleReading2 : EnvironmentalData :=
  { temperature := 10, humidity := 20, air_quality := 30, pressure := 40, timestamp := 12 }

/-- Witness for C4: after storing two readings the cursor is 2, the flag is
still false, slot 0 holds the first reading and slot 5 is still zeroed. -/
theorem ring_store_invariants_witness :
    (storeMany DataStorage.new [sampleReading1, sampleReading2]).write_index = 2 ∧
    (storeMany DataStorage.new [sampleReading1, sampleReading2]).is_full = false ∧
    (storeMany DataStorage.new [sampleReading1, sampleReading2]).data_buffer 0 = sampleReading1 ∧
    (storeMany DataStorage.new [sampleReading1, sampleReading2]).data_buffer 5 = zeroData := by
  obtain ⟨-, hw, hf, hb⟩ := ring_store_invariants [sampleReading1, sampleReading2]
  refine ⟨by rw [hw]; rfl, by rw [hf]; rfl, ?_, ?_⟩
  · rw [hb (by norm_num) 0]; rfl
  · rw [hb (by norm_num) 5]; rfl

/-- C5: `latest()` is `None` exactly when no store has ever occurred;
otherwise it returns the most recently stored reading (after `k` stores, the
`k`-th one).  After 51 stores the flag is true and slot 0 has been
overwritten with the 51st reading (the oldest original is gone). -/
theorem latest_data_spec (l : List EnvironmentalData) :
    (get_latest_data (storeMany DataStorage.new l) = none ↔ l = []) ∧
    (∀ h : l ≠ [], get_latest_data (storeMany DataStorage.new l) = some (l.getLast h)) ∧
    (l.length = 51 →
      (storeMany DataStorage.new l).is_full = true ∧
      (storeMany DataStorage.new l).data_buffer 0 = l.getD 50 zeroData) := by
  have hmain : ∀ h : l ≠ [], get_latest_data (storeMany DataStorage.new l) = some (l.getLast h) := by
    intro hne
    rcases l.eq_nil_or_concat' with rfl | ⟨l', d, rfl⟩
    · exact absurd rfl hne
    · have hwi : (storeMany DataStorage.new (l' ++ [d])).write_index = (l'.length + 1) % 50 := by
        rw [storeMany_write_index]
        simp
      have hlast : (storeMany DataStorage.new (l' ++ [d])).data_buffer (l'.length % 50) = d :=
        storeMany_last_slot l' d
      have hfull : (storeMany DataStorage.new (l' ++ [d])).is_full
          = decide (50 ≤ l'.length + 1) := by
        rw [storeMany_is_full]
        simp
      rw [List.getLast_append_singleton]
      by_cases hz : (l'.length + 1) % 50 = 0
      · have h49 : l'.length % 50 = 49 := by omega
        have hge : 50 ≤ l'.length + 1 := by omega
        have hfl : (storeMany DataStorage.new (l' ++ [d])).is_full = true := by
          rw [hfull]
          simp [hge]
        have hform : get_latest_data (storeMany DataStorage.new (l' ++ [d]))
            = some ((storeMany DataStorage.new (l' ++ [d])).data_buffer 49) := by
          simp [get_latest_data, hwi, hz, hfl]
        rw [hform, ← h49, hlast]
      · have hne0 : (l'.length + 1) % 50 ≠ 0 := hz
        have heq : (l'.length + 1) % 50 = l'.length % 50 + 1 := by omega
        simp only [get_latest_data, hwi]
        rw [if_neg (by simp [hne0])]
        rw [if_neg hne0, heq]
        simp only [Nat.add_sub_cancel]
        rw [hlast]
  refine ⟨⟨fun hnone => ?_, fun hnil => ?_⟩, hmain, fun h51 => ?_⟩
  · by_contra hne
    rw [hmain hne] at hnone
    exact Option.some_ne_none _ hnone
  · subst hnil
    rfl
  · rcases l.eq_nil_or_concat' with rfl | ⟨l', d, rfl⟩
    · simp at h51
    · have hlen : l'.length = 50 := by
        simp only [List.length_append, List.length_singleton] at h51
        omega
      constructor
      · rw [storeMany_is_full]
        simp only [List.length_append, List.length_singleton, hlen]
        decide
      · have hlast := storeMany_last_slot l' d
        rw [hlen] at hlast
        simp only [Nat.mod_self] at hlast
        rw [hlast, List.getD_append_right _ _ _ _ (by omega)]
        simp [hlen]

/-- Witness for C5: the latest reading after two stores is the second one, and
after 51 identical stores the full flag is set. -/
theorem latest_data_spec_witness :
    get_latest_data (storeMany DataStorage.new [sampleReading1, sampleReading2])
      = some sampleReading2 ∧
    (storeMany DataStorage.new (List.replicate 51 sampleReading1)).is_full = true := by
  constructor
  · have h := (latest_data_spec [sampleReading1, sampleReading2]).2.1 (by simp)
    rw [h]
    rfl
  · exact ((latest_data_spec (List.replicate 51 sampleReading1)).2.2 (by simp)).1

/-- The sum of one field over the `count`-slot window starting at `start`
(wrapping mod 50).  Used by the spec-side average definitions. -/
def windowSum (s : DataStorage) (start count : ℕ) (f : EnvironmentalData → ℚ) : ℚ :=
  ((List.range count).map (fun i => f (s.data_buffer ((start + i) % 50)))).sum

/-- Average as the C2 claim words it: `None` exactly when `count` is outside
[1, 50]; otherwise the window of `count` slots starting at
`(cursor + 50 - count) mod 50` is averaged field-wise by summation then
division by `count`, and the timestamp is the acquisition time of the call. -/
def get_average_data_claimed (s : DataStorage) (now : ℕ) (count : ℕ) :
    Option EnvironmentalData :=
  if 1 ≤ count ∧ count ≤ 50 then
    let start := (s.write_index + 50 - count) % 50
    some { temperature := windowSum s start count (fun d => d.temperature) / count,
           humidity := windowSum s start count (fun d => d.humidity) / count,
           air_quality := windowSum s start count (fun d => d.air_quality) / count,
           pressure := windowSum s start count (fun d => d.pressure) / count,
           timestamp := now }
  else none

/-- Average as the amended C2 claim words it: as `get_average_data_claimed`,
except that the window starts at `(cursor + 50 - count) mod 50` only when the
full flag is set, and at index 0 otherwise. -/
def get_average_data_amended (s : DataStorage) (now : ℕ) (count : ℕ) :
    Option EnvironmentalData :=
  if 1 ≤ count ∧ count ≤ 50 then
    let start := if s.is_full then (s.write_index + 50 - count) % 50 else 0
    some { temperature := windowSum s start count (fun d => d.temperature) / count,
           humidity := windowSum s start count (fun d => d.humidity) / count,
           air_quality := windowSum s start count (fun d => d.air_quality) / count,
           pressure := windowSum s start count (fun d => d.pressure) / count,
           timestamp := now }
  else none

theorem foldl_sum4 (l : List ℕ) (f g h k : ℕ → ℚ) (a b c d : ℚ) :
    l.foldl (fun acc i => (acc.1 + f i, acc.2.1 + g i, acc.2.2.1 + h i, acc.2.2.2 + k i))
        (a, b, c, d)
      = (a + (l.map f).sum, b + (l.map g).sum, c + (l.map h).sum, d + (l.map k).sum) := by
  induction l generalizing a b c d with
  | nil => simp
  | cons x xs ih =>
    simp only [List.foldl_cons, List.map_cons, List.sum_cons, ih]
    ring_nf

/-- C2 (amended): `get_average_data` returns `None` exactly when `count` is
outside [1, 50]; otherwise it averages the window of `count` slots starting
at `(cursor + 50 - count) mod 50` when the full flag is set and at index 0
otherwise, field-wise by summation then division by `count`, with the
timestamp taken at the time of the call. -/
theorem get_average_data_eq_amended (s : DataStorage) (now count : ℕ) :
    get_average_data s now count = get_average_data_amended s now count := by
  by_cases hc : count = 0 ∨ count > 50
  · rw [get_average_data, if_pos hc, get_average_data_amended, if_neg (by omega)]
  · have hcc : 1 ≤ count ∧ count ≤ 50 := by omega
    rw [get_average_data, if_neg hc, get_average_data_amended, if_pos hcc]
    simp only [foldl_sum4, windowSum, zero_add]

theorem average_claimed_counterexample :
    get_average_data (storeMany DataStorage.new [sampleReading1, sampleReading2]) 0 1
      ≠ get_average_data_claimed (storeMany DataStorage.new [sampleReading1, sampleReading2]) 0 1 := by
  have hfull : (storeMany DataStorage.new [sampleReading1, sampleReading2]).is_full = false := by
    rw [storeMany_is_full]
    rfl
  have hwi : (storeMany DataStorage.new [sampleReading1, sampleReading2]).write_index = 2 := by
    rw [storeMany_write_index]
    rfl
  have hb0 : (storeMany DataStorage.new [sampleReading1, sampleReading2]).data_buffer 0
      = sampleReading1 := by
    rw [storeMany_buffer_not_full _ (by norm_num)]
    rfl
  have hb1 : (storeMany DataStorage.new [sampleReading1, sampleReading2]).data_buffer 1
      = sampleReading2 := by
    rw [storeMany_buffer_not_full _ (by norm_num)]
    rfl
  have hL : get_average_data (storeMany DataStorage.new [sampleReading1, sampleReading2]) 0 1
      = some { temperature := 1, humidity := 2, air_quality := 3, pressure := 4,
               timestamp := 0 } := by
    rw [get_average_data, if_neg (by norm_num)]
    rw [show List.range 1 = [0] from rfl]
    simp only [hfull, Bool.false_eq_true, if_false, List.foldl_cons, List.foldl_nil,
      Nat.zero_add, Nat.zero_mod, hb0]
    norm_num [sampleReading1]
  have hR : get_average_data_claimed (storeMany DataStorage.new [sampleReading1, sampleReading2]) 0 1
      = some { temperature := 10, humidity := 20, air_quality := 30, pressure := 40,
               timestamp := 0 } := by
    rw [get_average_data_claimed, if_pos (by norm_num)]
    simp only [hwi, windowSum]
    rw [show List.range 1 = [0] from rfl]
    simp only [List.map_cons, List.map_nil, List.sum_cons, List.sum_nil,
      show ((1 : ℕ) + 0) % 50 = 1 from rfl, hb1]
    norm_num [sampleReading2]
  rw [hL, hR]
  simp only [ne_eq, Option.some.injEq, EnvironmentalData.mk.injEq]
  norm_num

/-- Wrapping `u32` subtraction `a - b` (both arguments < 2^32), as performed
by `current_time - self.last_reading_time` on line 439. -/
def u32_sub (a b : ℕ) : ℕ :=
  (a + 4294967296 - b) % 4294967296

/-- Reporter collaborator (spec section 6): the outcome each send attempt
would have.  The underlying `CommunicationSystem` serial transport is
hardware outside the model. -/
structure Reporter where
  send_reading : EnvironmentalData → Except SensorError Unit
  send_alert : Alert → Except SensorError Unit

/-- One attempted outbound communication of the monitoring cycle. -/
inductive CommEvent where
  | sendReading (data : EnvironmentalData)
  | sendAlert (alert : Alert)
  | setIndicators (status alert : Bool)
deriving DecidableEq

/-- The `for alert in alerts { self.communication.send_alert(&alert)?; }` loop
(lines 450-452): attempts each alert in order, stopping at the first
failure; also returns the attempts made. -/
def send_alerts (comm : Reporter) : List Alert → Except SensorError Unit × List CommEvent
  | [] => (.ok (), [])
  | a :: rest =>
    match comm.send_alert a with
    | .error e => (.error e, [CommEvent.sendAlert a])
    | .ok _ =>
      ((send_alerts comm rest).1, CommEvent.sendAlert a :: (send_alerts comm rest).2)

/-- `SystemStatus` (lines 410-415). -/
inductive SystemStatus where
  | running
  | calibrating
  | error
deriving DecidableEq

/-- `EnvironmentalMonitoringSystem` (lines 401-408); the
`CommunicationSystem` hardware handle is replaced by the `Reporter` oracle
passed to each cycle. -/
structure EnvironmentalMonitoringSystem where
  sensor_manager : SensorManager
  alert_system : AlertSystem
  data_storage : DataStorage
  last_reading_time : ℕ
  system_status : SystemStatus

/-- `EnvironmentalMonitoringSystem::run_monitoring_cycle` (lines 435-468).
`current_time` is the value of `arduino_hal::time::millis()`, `sensor_read`
the outcome `read_all_sensors()` would produce, and `comm` the Reporter
oracle.  Returns the `Result`, the post state, and the list of communication
attempts made (in order). -/
def run_monitoring_cycle (st : EnvironmentalMonitoringSystem) (comm : Reporter)
    (current_time : ℕ) (sensor_read : Except SensorError EnvironmentalData) :
    Except SensorError Unit × EnvironmentalMonitoringSystem × List CommEvent :=
  if st.sensor_manager.config.reading_interval ≤ u32_sub current_time st.last_reading_time then
    match sensor_read with
    | .ok data =>
      let st1 := { st with data_storage := store_data st.data_storage data }
      match comm.send_reading data with
      | .error e => (.error e, st1, [CommEvent.sendReading data])
      | .ok _ =>
        let pr := check_alerts st1.alert_system data
        let st2 := { st1 with alert_system := pr.2 }
        match send_alerts comm pr.1 with
        | (.error e, tr) => (.error e, st2, CommEvent.sendReading data :: tr)
        | (.ok _, tr) =>
          let has_alerts := !pr.1.isEmpty
          (.ok (), { st2 with last_reading_time := current_time },
           CommEvent.sendReading data :: tr ++ [CommEvent.setIndicators true has_alerts])
    | .error e => (.error e, { st with system_status := SystemStatus.error }, [])
  else (.ok (), st, [])

/-- C7: a monitoring cycle invoked while the interval has not yet elapsed
performs no acquisition, returns success, and leaves the whole controller
state (in particular `last_reading_time`) unchanged, attempting no
communication. -/
theorem cycle_not_elapsed_noop (st : EnvironmentalMonitoringSystem) (comm : Reporter)
    (current_time : ℕ) (sensor_read : Except SensorError EnvironmentalData)
    (h : u32_sub current_time st.last_reading_time < st.sensor_manager.config.reading_interval) :
    run_monitoring_cycle st comm current_time sensor_read = (.ok (), st, []) := by
  unfold run_monitoring_cycle
  rw [if_neg (not_le.mpr h)]

/-- A concrete freshly initialized system used by the controller witnesses:
default config, empty alert history, empty storage, `last_reading_time = 0`,
status `Running`. -/
def initSystem : EnvironmentalMonitoringSystem :=
  { sensor_manager := { config := SystemConfig.default },
    alert_system := AlertSystem.new SystemConfig.default,
    data_storage := DataStorage.new,
    last_reading_time := 0,
    system_status := SystemStatus.running }

/-- A Reporter whose transport always succeeds. -/
def okReporter : Reporter :=
  { send_reading := fun _ => .ok (), send_alert := fun _ => .ok () }

/-- Witness for C7: at time 100 with interval 5000 and `last_reading_time = 0`
the cycle is a no-op success. -/
theorem cycle_not_elapsed_noop_witness :
    run_monitoring_cycle initSystem okReporter 100 (.error SensorError.readError)
      = (.ok (), initSystem, []) :=
  cycle_not_elapsed_noop initSystem okReporter 100 (.error SensorError.readError)
    (by norm_num [initSystem, u32_sub, SystemConfig.default])

/-- C6: when the interval has elapsed and the sensor read fails with
`ReadError`, the status transitions to `Error`, the store/report/evaluate
steps are all skipped (storage, alert system and `last_reading_time` are
unchanged and no communication is attempted), and the `ReadError` is
returned to the caller. -/
theorem cycle_read_failure (st : EnvironmentalMonitoringSystem) (comm : Reporter)
    (current_time : ℕ)
    (h : st.sensor_manager.config.reading_interval
      ≤ u32_sub current_time st.last_reading_time) :
    run_monitoring_cycle st comm current_time (.error SensorError.readError)
      = (.error SensorError.readError, { st with system_status := SystemStatus.error }, []) := by
  unfold run_monitoring_cycle
  rw [if_pos h]

/-- Witness for C6: at time 5000 the interval (5000) has elapsed; a failing
read sends the fresh system to the `Error` status with the error returned. -/
theorem cycle_read_failure_witness :
    run_monitoring_cycle initSystem okReporter 5000 (.error SensorError.readError)
      = (.error SensorError.readError, { initSystem with system_status := SystemStatus.error },
         []) :=
  cycle_read_failure initSystem okReporter 5000
    (by norm_num [initSystem, u32_sub, SystemConfig.default])

theorem send_alerts_failure (comm : Reporter) (e : SensorError) (l1 : List Alert) (a : Alert)
    (l2 : List Alert) (h1 : ∀ b ∈ l1, comm.send_alert b = .ok ())
    (h2 : comm.send_alert a = .error e) :
    send_alerts comm (l1 ++ a :: l2)
      = (.error e, l1.map CommEvent.sendAlert ++ [CommEvent.sendAlert a]) := by
  induction l1 with
  | nil =>
    simp only [List.nil_append, send_alerts, h2, List.map_nil]
  | cons b bs ih =>
    have hb : comm.send_alert b = .ok () := h1 b (List.mem_cons_self b bs)
    have hrest := ih (fun x hx => h1 x (List.mem_cons_of_mem b hx))
    simp only [List.cons_append, send_alerts, hb, List.map_cons, List.append_eq]
    rw [hrest]

/-- C3 (amended): when the Reporter fails with `CommunicationError` during a
monitoring cycle, the reading/alert is dropped after exactly one send
attempt (the attempt trace contains it once, nothing after it is attempted
and nothing is retried), the error is returned to the caller, and the cycle
leaves `last_reading_time` unchanged (it is not advanced to the current
time). -/
theorem reporter_failure_single_attempt (st : EnvironmentalMonitoringSystem) (comm : Reporter)
    (current_time : ℕ) (data : EnvironmentalData)
    (helapsed : st.sensor_manager.config.reading_interval
      ≤ u32_sub current_time st.last_reading_time) :
    (comm.send_reading data = .error SensorError.communicationError →
      run_monitoring_cycle st comm current_time (.ok data)
        = (.error SensorError.communicationError,
           { st with data_storage := store_data st.data_storage data },
           [CommEvent.sendReading data]) ∧
      ({ st with data_storage := store_data st.data_storage data }).last_reading_time
        = st.last_reading_time) ∧
    (∀ l1 a l2, comm.send_reading data = .ok () →
      (check_alerts st.alert_system data).1 = l1 ++ a :: l2 →
      (∀ b ∈ l1, comm.send_alert b = .ok ()) →
      comm.send_alert a = .error SensorError.communicationError →
      run_monitoring_cycle st comm current_time (.ok data)
        = (.error SensorError.communicationError,
           { st with data_storage := store_data st.data_storage data,
                     alert_system := (check_alerts st.alert_system data).2 },
           CommEvent.sendReading data ::
             (l1.map CommEvent.sendAlert ++ [CommEvent.sendAlert a])) ∧
      ({ st with data_storage := store_data st.data_storage data,
                 alert_system := (check_alerts st.alert_system data).2 }).last_reading_time
        = st.last_reading_time) := by
  constructor
  · intro hsend
    refine ⟨?_, rfl⟩
    unfold run_monitoring_cycle
    rw [if_pos helapsed]
    simp only [hsend]
  · intro l1 a l2 hsend halerts h1 h2
    refine ⟨?_, rfl⟩
    unfold run_monitoring_cycle
    rw [if_pos helapsed]
    simp only [hsend, halerts, send_alerts_failure comm SensorError.communicationError l1 a l2 h1 h2]

/-- A Reporter whose reading transport always fails with
`CommunicationError` and whose alert transport succeeds. -/
def failReporter : Reporter :=
  { send_reading := fun _ => .error SensorError.communicationError,
    send_alert := fun _ => .ok () }

/-- Counterexample for C3 as stated: with the interval elapsed
(`current_time = 6000`, `last_reading_time = 0`, interval 5000) and a
Reporter failing with `CommunicationError`, the cycle returns the error but
`last_reading_time` stays 0 — it is NOT advanced to the current time 6000 as
the claim asserts. -/
theorem reporter_failure_counterexample :
    (run_monitoring_cycle initSystem failReporter 6000 (.ok sampleReading1)).1
      = .error SensorError.communicationError ∧
    (run_monitoring_cycle initSystem failReporter 6000 (.ok sampleReading1)).2.1.last_reading_time
      = 0 ∧
    (0 : ℕ) ≠ 6000 := by
  refine ⟨?_, ?_, by norm_num⟩
  · unfold run_monitoring_cycle
    rw [if_pos (by norm_num [initSystem, u32_sub, SystemConfig.default])]
    rfl
  · unfold run_monitoring_cycle
    rw [if_pos (by norm_num [initSystem, u32_sub, SystemConfig.default])]
    rfl

/-- Witness for C3 (amended), applying `reporter_failure_single_attempt` to
the concrete fresh system at time 6000 with the failing Reporter. -/
theorem reporter_failure_single_attempt_witness :
    run_monitoring_cycle initSystem failReporter 6000 (.ok sampleReading1)
      = (.error SensorError.communicationError,
         { initSystem with data_storage := store_data initSystem.data_storage sampleReading1 },
         [CommEvent.sendReading sampleReading1]) ∧
    ({ initSystem with
        data_storage := store_data initSystem.data_storage sampleReading1 }).last_reading_time
      = initSystem.last_reading_time :=
  (reporter_failure_single_attempt initSystem failReporter 6000 sampleReading1
    (by norm_num [initSystem, u32_sub, SystemConfig.default])).1 rfl

/-- `SensorManager::calibrate_sensor` (lines 138-158): every branch is the
stubbed hook that sets `calibration_factor` to 1.0 and returns `Ok(())`. -/
def calibrate_sensor (m : SensorManager) (sensor_type : SensorType) :
    Except SensorError Unit × SensorManager :=
  match sensor_type with
  | SensorType.temperature =>
    (.ok (), { m with config := { m.config with calibration_factor := 1 } })
  | SensorType.humidity =>
    (.ok (), { m with config := { m.config with calibration_factor := 1 } })
  | SensorType.airQuality =>
    (.ok (), { m with config := { m.config with calibration_factor := 1 } })
  | SensorType.pressure =>
    (.ok (), { m with config := { m.config with calibration_factor := 1 } })

/-- The `for sensor in &sensors { self.sensor_manager.calibrate_sensor(...)?; }`
loop of `calibrate_all_sensors` (lines 480-482). -/
def calibrate_loop (m : SensorManager) : List SensorType → Except SensorError SensorManager
  | [] => .ok m
  | t :: rest =>
    match calibrate_sensor m t with
    | (.ok _, m2) => calibrate_loop m2 rest
    | (.error e, _) => .error e

/-- `EnvironmentalMonitoringSystem::calibrate_all_sensors` (lines 470-486):
set status `Calibrating`, calibrate the four sensors in order (propagating
any error with the status still `Calibrating`), then set status `Running`. -/
def calibrate_all_sensors (sys : EnvironmentalMonitoringSystem) :
    Except SensorError Unit × EnvironmentalMonitoringSystem :=
  let sys1 := { sys with system_status := SystemStatus.calibrating }
  match calibrate_loop sys1.sensor_manager
      [SensorType.temperature, SensorType.humidity,
       SensorType.airQuality, SensorType.pressure] with
  | .error e => (.error e, sys1)
  | .ok m =>
    (.ok (),
     { sys1 with sensor_manager := m, system_status := SystemStatus.running })

/-- C10: `calibrate_sensor` returns `Ok(())` for every `SensorType` and only
sets `calibration_factor` to 1.0 (it never produces `CalibrationError`);
consequently `calibrate_all_sensors` always returns `Ok` and every
invocation ends with status `Running` regardless of the starting status,
with `calibration_factor` set to 1.0 and everything else unchanged. -/
theorem calibration_always_succeeds :
    (∀ (m : SensorManager) (t : SensorType),
      calibrate_sensor m t
        = (.ok (), { m with config := { m.config with calibration_factor := 1 } })) ∧
    (∀ sys : EnvironmentalMonitoringSystem,
      calibrate_all_sensors sys
        = (.ok (), { sys with
            sensor_manager := { sys.sensor_manager with
              config := { sys.sensor_manager.config with calibration_factor := 1 } },
            system_status := SystemStatus.running })) := by
  constructor
  · intro m t
    cases t <;> rfl
  · intro sys
    simp only [calibrate_all_sensors, calibrate_loop, calibrate_sensor]
